import Mathlib

/-!
Verification of the iothub-controller reference server
(`src/reference/server/iot_simulator_server.py` and
`src/reference/server/utils/message_envelope.py`) against its
natural-language specification.

The Python code is shallowly embedded: JSON values become an inductive
`JVal` with Python truthiness, the `MessageEnvelope` class becomes a
structure with its `__init__` defaulting rules (including an embedding of
Python keyword-argument calls, since one call site passes a keyword the
constructor does not accept), the database table `deviceids` becomes a
list of records, and the per-connection websocket handler becomes a
function over an explicit stream of receive/claim/send outcomes.
-/

/-- A scalar JSON-compatible Python value. -/
inductive JAtom where
  | null
  | bool (b : Bool)
  | num (n : Int)
  | str (s : String)
deriving DecidableEq, Repr

/-- A JSON-compatible Python value (the values stored in envelope fields
and passed in dicts): a scalar, a list of scalars, or a dict whose values
are scalars. The envelope code only ever stores flat dicts in `payload`
and `meta` and never inspects inside them beyond truthiness, so one level
of structure suffices. -/
inductive JVal where
  | atom (a : JAtom)
  | arr (xs : List JAtom)
  | obj (fields : List (String × JAtom))
deriving DecidableEq, Repr

/-- Python `None` as a `JVal`. -/
def JVal.null : JVal := .atom .null

/-- A Python bool as a `JVal`. -/
def JVal.bool (b : Bool) : JVal := .atom (.bool b)

/-- A Python int as a `JVal`. -/
def JVal.num (n : Int) : JVal := .atom (.num n)

/-- A Python string as a `JVal`. -/
def JVal.str (s : String) : JVal := .atom (.str s)

/-- Python truthiness of a JSON-compatible value: `None`, `False`, `0`,
`""`, `[]` and `{}` are falsy, everything else truthy. -/
def JVal.truthy : JVal → Bool
  | .atom .null => false
  | .atom (.bool b) => b
  | .atom (.num n) => n != 0
  | .atom (.str s) => s != ""
  | .arr xs => !xs.isEmpty
  | .obj fs => !fs.isEmpty

/-- Python `a or b` on JSON-compatible values. -/
def pyOr (a b : JVal) : JVal := if a.truthy then a else b

/-- Python `dict.get(k, default)` over an association list. -/
def dictGet (d : List (String × JVal)) (k : String) (dflt : JVal) : JVal :=
  match d.find? (fun p => p.1 = k) with
  | some p => p.2
  | none => dflt

/-- The envelope class of `utils/message_envelope.py`. Fields hold
JSON-compatible values exactly as the (untyped) Python attributes do;
`status = .null` models Python `None`. -/
structure MessageEnvelope where
  version : JVal
  type : JVal
  id : JVal
  correlationId : JVal
  ts : JVal
  action : JVal
  status : JVal
  payload : JVal
  meta : JVal
deriving DecidableEq, Repr

/-- The constructor `MessageEnvelope.__init__`. `freshId` models the `str(uuid.uuid4())`
generated for this call and `nowTs` models `iso_now()`; they are used only
when the corresponding argument is falsy, exactly as in
`self.id = id or str(uuid.uuid4())`, `self.correlationId = correlationId
or self.id`, `self.ts = ts or iso_now()`, `self.payload = payload or {}`,
`self.meta = meta or {}`. Arguments appear in the Python parameter order:
action, type, payload, status, correlationId, meta, version, id, ts. -/
def MessageEnvelope.init (freshId nowTs : String)
    (action type payload status correlationId meta version id ts : JVal) :
    MessageEnvelope :=
  let selfId := pyOr id (.str freshId)
  { version := version
    type := type
    id := selfId
    correlationId := pyOr correlationId selfId
    ts := pyOr ts (.str nowTs)
    action := action
    status := status
    payload := pyOr payload (.obj [])
    meta := pyOr meta (.obj []) }

/-- The method `MessageEnvelope.to_dict`: emits every field, adding `status` only
when it is not `None`. -/
def MessageEnvelope.to_dict (e : MessageEnvelope) : List (String × JVal) :=
  let d := [("version", e.version), ("type", e.type), ("id", e.id),
            ("correlationId", e.correlationId), ("ts", e.ts),
            ("action", e.action), ("payload", e.payload), ("meta", e.meta)]
  if e.status ≠ JVal.null then d ++ [("status", e.status)] else d

/-- The classmethod `MessageEnvelope.from_dict`: reconstructs an envelope through
`__init__` using `data.get` with the same defaults as the classmethod. -/
def MessageEnvelope.from_dict (freshId nowTs : String)
    (data : List (String × JVal)) : MessageEnvelope :=
  MessageEnvelope.init freshId nowTs
    (dictGet data "action" (.str ""))
    (dictGet data "type" (.str "command"))
    (dictGet data "payload" .null)
    (dictGet data "status" .null)
    (dictGet data "correlationId" .null)
    (dictGet data "meta" .null)
    (dictGet data "version" (.num 1))
    (dictGet data "id" .null)
    (dictGet data "ts" .null)

/-- The keyword parameters accepted by `MessageEnvelope.__init__`. -/
def envelopeInitParams : List String :=
  ["action", "type", "payload", "status", "correlationId", "meta",
   "version", "id", "ts"]

/-- A Python call `MessageEnvelope(**kwargs)`: if every keyword names a
parameter of `__init__`, the constructor runs (absent keywords take the
declared defaults); otherwise Python raises
`TypeError: __init__() got an unexpected keyword argument ...` before any
field is assigned. -/
def callMessageEnvelopeKw (freshId nowTs : String)
    (kwargs : List (String × JVal)) : Except String MessageEnvelope :=
  if (kwargs.map Prod.fst).all (fun k => envelopeInitParams.contains k) then
    .ok (MessageEnvelope.init freshId nowTs
      (dictGet kwargs "action" (.str ""))
      (dictGet kwargs "type" (.str "command"))
      (dictGet kwargs "payload" .null)
      (dictGet kwargs "status" .null)
      (dictGet kwargs "correlationId" .null)
      (dictGet kwargs "meta" .null)
      (dictGet kwargs "version" (.num 1))
      (dictGet kwargs "id" .null)
      (dictGet kwargs "ts" .null))
  else
    .error "TypeError: unexpected keyword argument"

/-- A row of the `deviceids` table (`DeviceId` model): `device_id`, plus a
nullable `device_uuid` where `none` models SQL NULL, i.e. unassigned. -/
structure DeviceRecord where
  device_id : String
  device_uuid : Option String
deriving DecidableEq, Repr

/-- The `deviceids` table. -/
abbrev Pool := List DeviceRecord

/-- Lexicographic order on character lists by code point (the binary
collation SQL uses for `ORDER BY` on these ASCII keys). -/
def listLe : List Char → List Char → Bool
  | [], _ => true
  | _ :: _, [] => false
  | a :: as, b :: bs =>
    if a.toNat < b.toNat then true
    else if b.toNat < a.toNat then false
    else listLe as bs

/-- Lexicographic order on strings by code point. -/
def strLe (a b : String) : Bool := listLe a.data b.data

/-- Smallest string of a list under the SQL ascending (lexicographic)
order, `none` for the empty list. -/
def minKey : List String → Option String
  | [] => none
  | k :: ks =>
    match minKey ks with
    | none => some k
    | some m => some (if strLe k m then k else m)

/-- The query in `assign_device_id`: `SELECT device_id FROM deviceids
WHERE device_uuid IS NULL ORDER BY device_id ASC LIMIT 1`. -/
def selectFirstUnassigned (pool : Pool) : Option String :=
  minKey ((pool.filter (fun r => r.device_uuid = none)).map
    DeviceRecord.device_id)

/-- The statement `UPDATE deviceids SET device_uuid = :message_id WHERE
device_id = :device_id` (note: no `device_uuid IS NULL` condition, so it
overwrites any existing binding of that key). -/
def bindKey (pool : Pool) (device_id message_id : String) : Pool :=
  pool.map (fun r =>
    if r.device_id = device_id
    then { r with device_uuid := some message_id } else r)

/-- The coroutine `assign_device_id(message_id, db)` run to completion without
interleaving: select the first unassigned key (404 if none), then update
that row and commit. Returns the HTTP outcome and the resulting table. -/
def assign_device_id (message_id : String) (pool : Pool) :
    Except (Nat × String) String × Pool :=
  match selectFirstUnassigned pool with
  | none => (.error (404, "No available device IDs to assign"), pool)
  | some device_id => (.ok device_id, bindKey pool device_id message_id)

instance {ε α : Type} [DecidableEq ε] [DecidableEq α] :
    DecidableEq (Except ε α) := fun a b =>
  match a, b with
  | .error e, .error f =>
    if h : e = f then .isTrue (congrArg Except.error h)
    else .isFalse (fun hh => h (Except.error.inj hh))
  | .ok x, .ok y =>
    if h : x = y then .isTrue (congrArg Except.ok h)
    else .isFalse (fun hh => h (Except.ok.inj hh))
  | .error _, .ok _ => .isFalse (fun hh => Except.noConfusion hh)
  | .ok _, .error _ => .isFalse (fun hh => Except.noConfusion hh)

/-- Progress of one in-flight `assign_device_id` call, split at its await
points: before the SELECT, between SELECT and UPDATE (holding the row it
read), and finished. -/
inductive SessionState where
  | ready
  | selected (device_id : String)
  | finished (result : Except (Nat × String) String)
deriving DecidableEq, Repr

/-- One concurrent `assign_device_id` caller: its claim token
(`message_id`) and its progress. -/
structure ClaimSession where
  token : String
  state : SessionState
deriving DecidableEq, Repr

/-- Shared database table plus the in-flight claim sessions. -/
structure ConcState where
  pool : Pool
  sessions : List ClaimSession
deriving DecidableEq, Repr

/-- One cooperative step of claim session `i` against the shared table:
from `ready` it runs the SELECT of `assign_device_id` (raising 404 when no
row is free); from `selected` it runs the UPDATE and commit and returns
the key it had read. Indices out of range and finished sessions do
nothing. -/
def stepSession (c : ConcState) (i : Nat) : ConcState :=
  match c.sessions[i]? with
  | none => c
  | some s =>
    match s.state with
    | .ready =>
      match selectFirstUnassigned c.pool with
      | none =>
        let r : Except (Nat × String) String :=
          .error (404, "No available device IDs to assign")
        let s := { s with state := SessionState.finished r }
        { c with sessions := c.sessions.set i s }
      | some k =>
        let s := { s with state := SessionState.selected k }
        { c with sessions := c.sessions.set i s }
    | .selected k =>
      let s := { s with state := SessionState.finished (.ok k) }
      { pool := bindKey c.pool k s.token, sessions := c.sessions.set i s }
    | .finished _ => c

/-- Run the sessions under a given interleaving: each schedule entry names
the session that performs its next step. -/
def runSchedule (c : ConcState) : List Nat → ConcState
  | [] => c
  | i :: rest => runSchedule (stepSession c i) rest

/-- A live websocket channel held in the registry, abstracted by the one
property the registry code observes: whether `send_json` on it raises. -/
structure WSChannel where
  sendFails : Bool
deriving DecidableEq, Repr

/-- The dict `ConnectionManager.active_connections`: a map from connection uuid to
websocket (keys unique, insertion order preserved). -/
abbrev Registry := List (String × WSChannel)

/-- Dict assignment `self.active_connections[uuid] = websocket`: replaces
the value in place when the key exists, otherwise appends. -/
def dictSet : Registry → String → WSChannel → Registry
  | [], k, v => [(k, v)]
  | (l, w) :: rest, k, v =>
    if l = k then (k, v) :: rest else (l, w) :: dictSet rest k v

/-- The method `ConnectionManager.connect`: accept the websocket and store it under
its uuid. -/
def ConnectionManager.connect (reg : Registry) (uuid : String)
    (ws : WSChannel) : Registry :=
  dictSet reg uuid ws

/-- The method `ConnectionManager.disconnect`:
`self.active_connections.pop(uuid, None)` (dict keys are unique, so
removing every entry with the key equals `pop`). -/
def ConnectionManager.disconnect (reg : Registry) (uuid : String) :
    Registry :=
  reg.filter (fun p => p.1 ≠ uuid)

/-- Result of `ConnectionManager.send_command`: whether the message was
delivered, and the registry afterwards. The Python method never raises:
a missing key does nothing and a send error is caught, logged and
answered by disconnecting that key. -/
structure SendOutcome where
  delivered : Bool
  registry : Registry
deriving DecidableEq, Repr

/-- The method `ConnectionManager.send_command`: look the uuid up with
`active_connections.get`; if absent (`if ws:` false) do nothing; else try
the send and on any exception disconnect the uuid. -/
def ConnectionManager.send_command (reg : Registry) (uuid : String) :
    SendOutcome :=
  match reg.find? (fun p => p.1 = uuid) with
  | none => ⟨false, reg⟩
  | some (_, ws) =>
    if ws.sendFails then ⟨false, ConnectionManager.disconnect reg uuid⟩
    else ⟨true, reg⟩

/-- The loop of `ConnectionManager.broadcast`: iterate over the
point-in-time snapshot `list(self.active_connections.items())` (first
argument) while mutating the live registry (second argument); a failed
send disconnects that uuid and iteration continues. Accumulates the uuids
delivered to, in iteration order. -/
def broadcastLoop : List (String × WSChannel) → Registry → List String →
    List String × Registry
  | [], reg, delivered => (delivered.reverse, reg)
  | (uuid, ws) :: rest, reg, delivered =>
    if ws.sendFails then
      broadcastLoop rest (ConnectionManager.disconnect reg uuid) delivered
    else
      broadcastLoop rest reg (uuid :: delivered)

/-- The method `ConnectionManager.broadcast`: returns the uuids delivered to and the
registry afterwards. The method never raises: every send error is caught
inside the loop. -/
def ConnectionManager.broadcast (reg : Registry) :
    List String × Registry :=
  broadcastLoop reg reg []

/-- The `POST /command/{uuid}` endpoint body: call
`manager.send_command` and answer with the literal
response body fields status and uuid, unconditionally. -/
def send_command_endpoint (reg : Registry) (uuid : String) :
    (String × String) × Registry :=
  (("sent", uuid), (ConnectionManager.send_command reg uuid).registry)

/-- Outcome of one `websocket.send_json` attempt, chosen by the
environment (the peer and the network). -/
inductive SendResult where
  | ok
  | raiseWsDisconnect
  | raiseOther (msg : String)
deriving DecidableEq, Repr

/-- Outcome of the `await assign_device_id(...)` call made for a request
message: success, an `HTTPException` (e.g. the 404 raised on an exhausted
pool), or any other exception (e.g. a database failure). -/
inductive ClaimResult where
  | ok (device_id : String)
  | httpExc (statusCode : Nat) (detail : String)
  | otherExc (msg : String)
deriving DecidableEq, Repr

/-- An incoming JSON message, restricted to the fields the handler reads
(`data.get` on "type", "id" and "action"). -/
structure WsMsg where
  type? : Option String
  id? : Option String
  action? : Option String
deriving DecidableEq, Repr

/-- Outcome of one `websocket.receive_json()`. -/
inductive RecvResult where
  | msg (data : WsMsg)
  | raiseWsDisconnect
  | raiseOther (msg : String)
deriving DecidableEq, Repr

/-- Environment of one iteration of the handler loop: the receive
outcome, the claim outcome (consulted only for request messages), the
outcome of the send the iteration performs (each iteration sends at most
once), and the values of `generate_uuid()` and `iso_now()` for the
iteration. -/
structure IterEnv where
  recv : RecvResult
  claim : ClaimResult
  send : SendResult
  fresh : String
  now : String
deriving DecidableEq, Repr

/-- How one run of the `while True` body ends when it does not simply
continue with the next iteration: a `WebSocketDisconnect` escaping the
body (caught by the handler's `except WebSocketDisconnect`), any other
exception escaping the body (caught by nothing), or a `break`. -/
inductive LoopExit where
  | wsDisconnectExc
  | uncaughtExc (msg : String)
  | breakStmt
deriving DecidableEq, Repr

/-- One run of the body of the `while True` loop of `websocket_endpoint`
(lines 141-229 of `iot_simulator_server.py`), returning the envelopes it
delivered to the client and how it ended. `connString` models
`generate_iothub_connection_string`. Each `MessageEnvelope(...)` call is
embedded through `callMessageEnvelopeKw` with the exact keyword list of
its call site; note that both error-envelope sites pass the keyword
`correlation_id`, which `__init__` does not accept. -/
def runIter (connString : String → String) (e : IterEnv) :
    List MessageEnvelope × Option LoopExit :=
  match e.recv with
  | .raiseWsDisconnect => ([], some .wsDisconnectExc)
  | .raiseOther m => ([], some (.uncaughtExc m))
  | .msg data =>
    if data.type? = some "request" then
      match e.claim with
      | .httpExc sc detail =>
        match callMessageEnvelopeKw e.fresh e.now
          [("action", .str (data.action?.getD "unknown")),
           ("type", .str "error"),
           ("id", .str e.fresh),
           ("correlation_id", .str (data.id?.getD "")),
           ("payload", .obj []),
           ("status", .str "failure"),
           ("meta", .obj [("http_detail", .str detail),
                          ("http_status", .num sc)])] with
        | .error te => ([], some (.uncaughtExc te))
        | .ok envl =>
          match e.send with
          | .ok => ([envl], none)
          | _ => ([], some .breakStmt)
      | .otherExc m =>
        match callMessageEnvelopeKw e.fresh e.now
          [("action", .str (data.action?.getD "unknown")),
           ("type", .str "error"),
           ("id", .str e.fresh),
           ("correlation_id", .str (data.id?.getD "")),
           ("payload", .obj []),
           ("status", .str "failure"),
           ("meta", .obj [("error", .str m)])] with
        | .error te => ([], some (.uncaughtExc te))
        | .ok envl =>
          match e.send with
          | .ok => ([envl], some .breakStmt)
          | _ => ([], some .breakStmt)
      | .ok device_id =>
        match callMessageEnvelopeKw e.fresh e.now
          [("version", .num 1),
           ("type", .str "response"),
           ("id", .str e.fresh),
           ("correlationId", .str (data.id?.getD "")),
           ("action", .str "device.config.update"),
           ("payload", .obj
             [("device_id", .str device_id),
              ("IOTHUB_DEVICE_CONNECTION_STRING",
               .str (connString device_id)),
              ("initialRetryTimeout", .num 30),
              ("maxRetry", .num 10),
              ("messageIntervalSeconds", .num 5)]),
           ("status", .str "success")] with
        | .error te => ([], some (.uncaughtExc te))
        | .ok envl =>
          match e.send with
          | .ok => ([envl], none)
          | .raiseWsDisconnect => ([], some .wsDisconnectExc)
          | .raiseOther m => ([], some (.uncaughtExc m))
    else if data.type? = some "report" then
      match callMessageEnvelopeKw e.fresh e.now
        [("version", .num 1),
         ("type", .str "response"),
         ("action", .str "none"),
         ("id", .str e.fresh),
         ("correlationId", .str (data.id?.getD "")),
         ("status", .str "received")] with
      | .error te => ([], some (.uncaughtExc te))
      | .ok envl =>
        match e.send with
        | .ok => ([envl], none)
        | .raiseWsDisconnect => ([], some .wsDisconnectExc)
        | .raiseOther m => ([], some (.uncaughtExc m))
    else
      ([], none)

/-- How the handler terminated. Only `closedClean` runs
`manager.disconnect`: the handler's sole cleanup is the
`except WebSocketDisconnect` clause; a `break` leaves the loop and
returns normally without it, and any other exception propagates out of
the function. `stillOpen` means the supplied event stream is exhausted
and the handler is awaiting the next message. -/
inductive HandlerExit where
  | stillOpen
  | closedClean
  | returnedNoCleanup
  | crashed (msg : String)
deriving DecidableEq, Repr

/-- Final state of one `websocket_endpoint` run: the connection registry,
the envelopes delivered to this client, and how the handler ended. -/
structure HandlerResult where
  registry : Registry
  sent : List MessageEnvelope
  exit : HandlerExit
deriving DecidableEq, Repr

/-- The `try`/`while True`/`except WebSocketDisconnect` of
`websocket_endpoint`, driven by the per-iteration environments. -/
def wsLoop (connString : String → String) (uuid : String) :
    List IterEnv → Registry → List MessageEnvelope → HandlerResult
  | [], reg, sent => ⟨reg, sent, .stillOpen⟩
  | e :: rest, reg, sent =>
    match runIter connString e with
    | (envs, none) => wsLoop connString uuid rest reg (sent ++ envs)
    | (envs, some .wsDisconnectExc) =>
      ⟨ConnectionManager.disconnect reg uuid, sent ++ envs, .closedClean⟩
    | (envs, some .breakStmt) =>
      ⟨reg, sent ++ envs, .returnedNoCleanup⟩
    | (envs, some (.uncaughtExc m)) => ⟨reg, sent ++ envs, .crashed m⟩

/-- The websocket session handler `websocket_endpoint` (modeled with
`API_BEARER_TOKEN` unset, i.e. the opt-in auth gate disabled):
`manager.connect` registers the connection, then the message loop runs
over the supplied event stream. -/
def websocket_endpoint (connString : String → String) (uuid : String)
    (ws : WSChannel) (events : List IterEnv) (reg : Registry) :
    HandlerResult :=
  wsLoop connString uuid events (ConnectionManager.connect reg uuid ws) []

/-- An exception inside the database `try` block of `delete_device`. -/
inductive PyExc where
  | http (statusCode : Nat) (detail : String)
  | dbErr (msg : String)
deriving DecidableEq, Repr

/-- Environment of the database part of `delete_device`:
`execResult = none` models the DELETE statement raising, `some rc` models
it returning with `rowcount = rc`; `commitOk` models the commit. -/
structure DeleteDbEnv where
  execResult : Option Nat
  commitOk : Bool
deriving DecidableEq, Repr

/-- The body of the database `try` block of `delete_device`: run the
DELETE, raise `HTTPException(404, "Device ID not found in DB")` when
`rowcount == 0`, then commit. -/
def delete_device_db_body (env : DeleteDbEnv) : Except PyExc Unit :=
  match env.execResult with
  | none => .error (.dbErr "execute failed")
  | some rc =>
    if rc = 0 then .error (.http 404 "Device ID not found in DB")
    else if env.commitOk then .ok () else .error (.dbErr "commit failed")

/-- The `POST /delete_device/{device_id}` endpoint: delete the external
credential (500 on failure), then run the database block; its
`except Exception` clause catches every exception raised in the block -
including the handler's own `HTTPException(404)` - and re-raises
`HTTPException(500, "Database deletion error")`. An `.ok` result models
the 200 response with the deleted id. -/
def delete_device (device_id : String) (credentialDeleteOk : Bool)
    (env : DeleteDbEnv) : Except (Nat × String) String :=
  if credentialDeleteOk = false then
    .error (500, "Azure IoT Hub deletion error")
  else
    match delete_device_db_body env with
    | .ok _ => .ok device_id
    | .error _ => .error (500, "Database deletion error")

/-- Python `f"{n:04d}"`: decimal digits zero-padded to width 4. -/
def pad4 (n : Nat) : String :=
  let s := toString n
  if s.length < 4 then String.mk (List.replicate (4 - s.length) '0') ++ s
  else s

/-- The fallback of `delete_all_devices` when the store enumeration is
empty: `simdevice0001` through `simdevice1000`. -/
def fallback_device_ids : List String :=
  (List.range 1000).map (fun i => "simdevice" ++ pad4 (i + 1))

/-- The ids `delete_all_devices` iterates over: the enumerated rows when
nonempty, otherwise the 1000 synthetic fallback ids. -/
def delete_all_target_ids (rows : List String) : List String :=
  if rows.isEmpty then fallback_device_ids else rows

/-- Result of `POST /delete_all_devices`: which ids had an external
credential deletion attempted (every target id is attempted: per-id
errors are logged and iteration continues), and the HTTP outcome of the
final durable clear. -/
structure DeleteAllResult where
  credentialDeletionsAttempted : List String
  response : Except (Nat × String) String
deriving DecidableEq, Repr

/-- The `POST /delete_all_devices` endpoint, given the enumerated
`device_id` rows and whether the final DELETE-and-commit succeeds. -/
def delete_all_devices (rows : List String) (dbClearOk : Bool) :
    DeleteAllResult :=
  let ids := delete_all_target_ids rows
  { credentialDeletionsAttempted := ids
    response :=
      if dbClearOk then .ok "all devices deleted"
      else .error (500, "Database deletion error") }

/-- A concrete stand-in for `generate_iothub_connection_string`. -/
def testConnString (device_id : String) : String :=
  "HostName=h;DeviceId=" ++ device_id ++ ";SharedAccessKey=k"

theorem listLe_refl (as : List Char) : listLe as as = true := by
  induction as with
  | nil => rfl
  | cons a t ih =>
    simp only [listLe]
    rw [if_neg (by omega), if_neg (by omega)]
    exact ih

theorem listLe_cons_iff (a b : Char) (as bs : List Char) :
    listLe (a :: as) (b :: bs) = true ↔
    (a.toNat < b.toNat ∨ (a.toNat = b.toNat ∧ listLe as bs = true)) := by
  simp only [listLe]
  rcases Nat.lt_trichotomy a.toNat b.toNat with h | h | h
  · rw [if_pos h]
    simp [h]
  · rw [if_neg (by omega), if_neg (by omega)]
    simp [h]
  · rw [if_neg (by omega), if_pos h]
    constructor
    · intro hh
      exact absurd hh (by simp)
    · rintro (hh | ⟨hh, _⟩) <;> omega

theorem listLe_total (as bs : List Char) :
    listLe as bs = true ∨ listLe bs as = true := by
  induction as generalizing bs with
  | nil => exact .inl rfl
  | cons a t ih =>
    cases bs with
    | nil => exact .inr rfl
    | cons b u =>
      rcases Nat.lt_trichotomy a.toNat b.toNat with h | h | h
      · exact .inl ((listLe_cons_iff a b t u).mpr (.inl h))
      · rcases ih u with hh | hh
        · exact .inl ((listLe_cons_iff a b t u).mpr (.inr ⟨h, hh⟩))
        · exact .inr ((listLe_cons_iff b a u t).mpr (.inr ⟨h.symm, hh⟩))
      · exact .inr ((listLe_cons_iff b a u t).mpr (.inl h))

theorem listLe_trans (as : List Char) :
    ∀ bs cs, listLe as bs = true → listLe bs cs = true →
    listLe as cs = true := by
  induction as with
  | nil => intro bs cs _ _; rfl
  | cons a t ih =>
    intro bs cs h1 h2
    cases bs with
    | nil => simp [listLe] at h1
    | cons b u =>
      cases cs with
      | nil => simp [listLe] at h2
      | cons c w =>
        rw [listLe_cons_iff] at h1 h2 ⊢
        rcases h1 with h1 | ⟨h1e, h1r⟩
        · rcases h2 with h2 | ⟨h2e, _⟩
          · exact .inl (by omega)
          · exact .inl (by omega)
        · rcases h2 with h2 | ⟨h2e, h2r⟩
          · exact .inl (by omega)
          · exact .inr ⟨by omega, ih u w h1r h2r⟩

theorem strLe_refl (a : String) : strLe a a = true := listLe_refl a.data

theorem strLe_total (a b : String) : strLe a b = true ∨ strLe b a = true :=
  listLe_total a.data b.data

theorem strLe_trans {a b c : String} (h1 : strLe a b = true)
    (h2 : strLe b c = true) : strLe a c = true :=
  listLe_trans a.data b.data c.data h1 h2

theorem minKey_cons_none {k : String} {ks : List String}
    (h : minKey ks = none) : minKey (k :: ks) = some k := by
  simp only [minKey, h]

theorem minKey_cons_some {k m : String} {ks : List String}
    (h : minKey ks = some m) :
    minKey (k :: ks) = some (if strLe k m then k else m) := by
  simp only [minKey, h]

theorem minKey_eq_none : ∀ {l : List String}, minKey l = none → l = []
  | [], _ => rfl
  | _ :: ks, h => by
    cases hm : minKey ks with
    | none => rw [minKey_cons_none hm] at h; cases h
    | some m => rw [minKey_cons_some hm] at h; cases h

theorem minKey_mem : ∀ {l : List String} {k : String},
    minKey l = some k → k ∈ l
  | [], _, h => by simp [minKey] at h
  | a :: t, k, h => by
    cases hm : minKey t with
    | none =>
      rw [minKey_cons_none hm] at h
      injection h with h
      subst h
      exact List.mem_cons_self a t
    | some m =>
      rw [minKey_cons_some hm] at h
      injection h with h
      by_cases hc : strLe a m = true
      · rw [if_pos hc] at h
        subst h
        exact List.mem_cons_self a t
      · rw [if_neg hc] at h
        subst h
        exact List.mem_cons_of_mem a (minKey_mem hm)

theorem minKey_le : ∀ {l : List String} {k : String}, minKey l = some k →
    ∀ x ∈ l, strLe k x = true
  | [], _, h => by simp [minKey] at h
  | a :: t, k, h => by
    intro x hx
    cases hm : minKey t with
    | none =>
      rw [minKey_cons_none hm] at h
      injection h with h
      have ht := minKey_eq_none hm
      subst ht
      rcases List.mem_cons.mp hx with hxa | hxt
      · rw [← h, hxa]
        exact strLe_refl a
      · cases hxt
    | some m =>
      rw [minKey_cons_some hm] at h
      injection h with h
      by_cases hc : strLe a m = true
      · rw [if_pos hc] at h
        rw [← h]
        rcases List.mem_cons.mp hx with hxa | hxt
        · rw [hxa]
          exact strLe_refl a
        · exact strLe_trans hc (minKey_le hm x hxt)
      · rw [if_neg hc] at h
        rw [← h]
        rcases List.mem_cons.mp hx with hxa | hxt
        · rw [hxa]
          rcases strLe_total m a with hh | hh
          · exact hh
          · exact absurd hh hc
        · exact minKey_le hm x hxt

theorem pyOr_truthy {a : JVal} (b : JVal) (h : a.truthy = true) :
    pyOr a b = a := by
  simp [pyOr, h]

/-- C1: the code claims atomic claim semantics, but `assign_device_id`
runs its SELECT and its UPDATE as two separate awaited statements with no
conditional (`device_uuid IS NULL`) guard on the UPDATE. Under the
interleaving select-select-update-update, two concurrent claims with
tokens `token-a` and `token-b` against a pool of two unassigned keys both
return `simdevice0001`. -/
theorem concurrent_claims_can_return_same_key :
    (runSchedule
      { pool := [⟨"simdevice0001", none⟩, ⟨"simdevice0002", none⟩]
        sessions := [⟨"token-a", .ready⟩, ⟨"token-b", .ready⟩] }
      [0, 1, 0, 1]).sessions =
    [⟨"token-a", .finished (.ok "simdevice0001")⟩,
     ⟨"token-b", .finished (.ok "simdevice0001")⟩] := by decide

/-- C2: the handler's only registry cleanup is its
`except WebSocketDisconnect` clause. A send failing with any other
exception (here a report acknowledgment send raising a RuntimeError)
terminates the handler while its key `u1` is still registered. -/
theorem send_failure_exit_leaves_key_registered :
    websocket_endpoint testConnString "u1" ⟨false⟩
      [⟨.msg ⟨some "report", some "r1", none⟩, .ok "x",
        .raiseOther "RuntimeError: send failed", "f1", "t1"⟩] []
    = ⟨[("u1", ⟨false⟩)], [],
       .crashed "RuntimeError: send failed"⟩ := by decide

/-- C3: on a request whose claim fails (exhausted pool, HTTP 404), the
handler's error-envelope construction passes the keyword `correlation_id`
to `MessageEnvelope.__init__`, which only accepts `correlationId`; the
call raises TypeError before anything is sent, so no error envelope with
correlationId `tok1` is emitted and the handler terminates instead of
remaining open. -/
theorem claim_failure_path_raises_typeerror_sends_nothing :
    websocket_endpoint testConnString "u1" ⟨false⟩
      [⟨.msg ⟨some "request", some "tok1", none⟩,
        .httpExc 404 "No available device IDs to assign", .ok, "f1", "t1"⟩]
      []
    = ⟨[("u1", ⟨false⟩)], [],
       .crashed "TypeError: unexpected keyword argument"⟩ := by decide

/-- C4: `delete_all_devices` on an empty enumeration does not attempt the
credential deletion for no key: it fabricates the 1000 synthetic ids
`simdevice0001..simdevice1000` and attempts an external credential
deletion for each of them. -/
theorem delete_all_empty_store_fabricates_ids :
    (delete_all_devices [] true).credentialDeletionsAttempted =
      fallback_device_ids ∧
    fallback_device_ids.length = 1000 ∧
    "simdevice0001" ∈ fallback_device_ids := by
  refine ⟨?_, ?_, ?_⟩
  · simp [delete_all_devices, delete_all_target_ids]
  · simp [fallback_device_ids]
  · exact List.mem_map.mpr ⟨0, List.mem_range.mpr (by decide), by decide⟩

/-- C5: when the pool has at least one unassigned record,
`assign_device_id` returns the lexicographically smallest unassigned key,
binds exactly that key to the token, and leaves every record with a
different key unchanged. -/
theorem claim_returns_smallest_unassigned (tok : String) (pool : Pool)
    (h : ∃ r ∈ pool, r.device_uuid = none) :
    ∃ k, assign_device_id tok pool = (.ok k, bindKey pool k tok) ∧
      (∃ r ∈ pool, r.device_id = k ∧ r.device_uuid = none) ∧
      (∀ r ∈ pool, r.device_uuid = none → strLe k r.device_id = true) ∧
      (∀ r ∈ bindKey pool k tok, r.device_id = k →
        r.device_uuid = some tok) ∧
      (∀ r ∈ pool, r.device_id ≠ k → r ∈ bindKey pool k tok) := by
  obtain ⟨r0, hr0, hu0⟩ := h
  have hmem0 : r0.device_id ∈
      (pool.filter (fun r => r.device_uuid = none)).map
        DeviceRecord.device_id :=
    List.mem_map_of_mem _ (List.mem_filter.mpr ⟨hr0, by simp [hu0]⟩)
  cases hsel : selectFirstUnassigned pool with
  | none =>
    exfalso
    have hnil := minKey_eq_none (show minKey
      ((pool.filter (fun r => r.device_uuid = none)).map
        DeviceRecord.device_id) = none from hsel)
    rw [hnil] at hmem0
    cases hmem0
  | some k =>
    have hsel' : minKey ((pool.filter (fun r => r.device_uuid = none)).map
        DeviceRecord.device_id) = some k := hsel
    have hkmem := minKey_mem hsel'
    have hkle := minKey_le hsel'
    refine ⟨k, ?_, ?_, ?_, ?_, ?_⟩
    · unfold assign_device_id
      rw [hsel]
    · rcases List.mem_map.mp hkmem with ⟨r, hrf, hrid⟩
      rcases List.mem_filter.mp hrf with ⟨hrp, hru⟩
      exact ⟨r, hrp, hrid, by simpa using hru⟩
    · intro r hr hru
      exact hkle r.device_id
        (List.mem_map_of_mem _ (List.mem_filter.mpr ⟨hr, by simp [hru]⟩))
    · intro r hr hrk
      simp only [bindKey] at hr
      rcases List.mem_map.mp hr with ⟨r1, hr1, hfr1⟩
      by_cases hc : r1.device_id = k
      · rw [if_pos hc] at hfr1
        rw [← hfr1]
      · rw [if_neg hc] at hfr1
        rw [← hfr1] at hrk
        exact absurd hrk hc
    · intro r hr hrk
      simp only [bindKey]
      exact List.mem_map.mpr ⟨r, hr, by rw [if_neg hrk]⟩

/-- C5 witness: a concrete pool whose smallest key is already assigned;
the claim returns `simdevice0002`, the smallest unassigned key. -/
theorem claim_returns_smallest_unassigned_witness :
    (∃ r ∈ ([⟨"simdevice0001", some "w"⟩, ⟨"simdevice0003", none⟩,
             ⟨"simdevice0002", none⟩] : Pool), r.device_uuid = none) ∧
    (∃ k, assign_device_id "abc"
        [⟨"simdevice0001", some "w"⟩, ⟨"simdevice0003", none⟩,
         ⟨"simdevice0002", none⟩] =
        (.ok k, bindKey [⟨"simdevice0001", some "w"⟩,
          ⟨"simdevice0003", none⟩, ⟨"simdevice0002", none⟩] k "abc") ∧
      (∃ r ∈ ([⟨"simdevice0001", some "w"⟩, ⟨"simdevice0003", none⟩,
               ⟨"simdevice0002", none⟩] : Pool),
        r.device_id = k ∧ r.device_uuid = none) ∧
      (∀ r ∈ ([⟨"simdevice0001", some "w"⟩, ⟨"simdevice0003", none⟩,
               ⟨"simdevice0002", none⟩] : Pool),
        r.device_uuid = none → strLe k r.device_id = true) ∧
      (∀ r ∈ bindKey [⟨"simdevice0001", some "w"⟩,
          ⟨"simdevice0003", none⟩, ⟨"simdevice0002", none⟩] k "abc",
        r.device_id = k → r.device_uuid = some "abc") ∧
      (∀ r ∈ ([⟨"simdevice0001", some "w"⟩, ⟨"simdevice0003", none⟩,
               ⟨"simdevice0002", none⟩] : Pool),
        r.device_id ≠ k →
        r ∈ bindKey [⟨"simdevice0001", some "w"⟩,
          ⟨"simdevice0003", none⟩, ⟨"simdevice0002", none⟩] k "abc")) :=
  ⟨by decide, claim_returns_smallest_unassigned "abc" _ (by decide)⟩

/-- C6: when no record is unassigned, `assign_device_id` fails with the
404 error and returns the table unchanged (the UPDATE and commit are
never reached). -/
theorem claim_exhausted_pool_fails_404_pool_unchanged (tok : String)
    (pool : Pool) (h : ∀ r ∈ pool, r.device_uuid ≠ none) :
    assign_device_id tok pool =
      (.error (404, "No available device IDs to assign"), pool) := by
  have hf : pool.filter (fun r => r.device_uuid = none) = [] := by
    rw [List.filter_eq_nil_iff]
    intro r hr
    simpa using h r hr
  unfold assign_device_id selectFirstUnassigned
  rw [hf]
  rfl

/-- C6 witness: a fully assigned one-record pool. -/
theorem claim_exhausted_pool_fails_404_pool_unchanged_witness :
    (∀ r ∈ ([⟨"simdevice0001", some "x"⟩] : Pool),
      r.device_uuid ≠ none) ∧
    assign_device_id "t" [⟨"simdevice0001", some "x"⟩] =
      (.error (404, "No available device IDs to assign"),
       [⟨"simdevice0001", some "x"⟩]) :=
  ⟨by decide,
   claim_exhausted_pool_fails_404_pool_unchanged "t" _ (by decide)⟩

/-- C9: when the external credential deletion succeeds but the DELETE
matches no row, `delete_device` raises `HTTPException(404)` inside its
own `try` block, whose `except Exception` clause catches it and re-raises
`HTTPException(500, "Database deletion error")`: the endpoint responds
500, not 404. -/
theorem delete_device_missing_record_responds_500 :
    delete_device "dev1" true ⟨some 0, true⟩ =
      .error (500, "Database deletion error") ∧
    delete_device_db_body ⟨some 0, true⟩ =
      .error (.http 404 "Device ID not found in DB") := by decide

/-- C10: a targeted send to a key absent from the registry is a silent
no-op - nothing is delivered, nothing raises, the registry is unchanged -
and the `POST /command/{uuid}` endpoint still answers
`{"status": "sent", "uuid": uuid}`. -/
theorem send_command_unknown_key_silent_noop (reg : Registry)
    (uuid : String) (h : ∀ p ∈ reg, p.1 ≠ uuid) :
    ConnectionManager.send_command reg uuid = ⟨false, reg⟩ ∧
    send_command_endpoint reg uuid = (("sent", uuid), reg) := by
  have hf : reg.find? (fun p => p.1 = uuid) = none := by
    rw [List.find?_eq_none]
    intro p hp
    simpa using h p hp
  constructor
  · unfold ConnectionManager.send_command
    rw [hf]
  · unfold send_command_endpoint ConnectionManager.send_command
    rw [hf]

/-- C10 witness: sending to `b` while only `a` is registered. -/
theorem send_command_unknown_key_silent_noop_witness :
    (∀ p ∈ ([("a", ⟨false⟩)] : Registry), p.1 ≠ "b") ∧
    (ConnectionManager.send_command [("a", ⟨false⟩)] "b" =
      ⟨false, [("a", ⟨false⟩)]⟩ ∧
     send_command_endpoint [("a", ⟨false⟩)] "b" =
      (("sent", "b"), [("a", ⟨false⟩)])) :=
  ⟨by decide, send_command_unknown_key_silent_noop _ "b" (by decide)⟩

theorem disconnect_idem (reg : Registry) (u : String) :
    ConnectionManager.disconnect (ConnectionManager.disconnect reg u) u =
    ConnectionManager.disconnect reg u := by
  simp [ConnectionManager.disconnect, List.filter_filter]

theorem broadcastLoop_spec (u : String) (l : List (String × WSChannel)) :
    ∀ (reg : Registry) (acc : List String),
    (∀ p ∈ l, p.2.sendFails = decide (p.1 = u)) →
    broadcastLoop l reg acc =
      (acc.reverse ++ (l.map Prod.fst).filter (fun k => k ≠ u),
       if u ∈ l.map Prod.fst then ConnectionManager.disconnect reg u
       else reg) := by
  induction l with
  | nil =>
    intro reg acc _
    simp [broadcastLoop]
  | cons q rest ih =>
    intro reg acc hl
    obtain ⟨k, w⟩ := q
    have hk : w.sendFails = decide (k = u) :=
      hl (k, w) (List.mem_cons_self _ _)
    have hrest : ∀ p ∈ rest, p.2.sendFails = decide (p.1 = u) :=
      fun p hp => hl p (List.mem_cons_of_mem _ hp)
    by_cases hku : k = u
    · subst hku
      have hw : w.sendFails = true := by simp [hk]
      simp only [broadcastLoop, hw, if_pos]
      rw [ih _ _ hrest]
      have hfc : (((k, w) :: rest).map Prod.fst).filter (fun x => x ≠ k) =
          (rest.map Prod.fst).filter (fun x => x ≠ k) := by
        simp [List.filter_cons]
      rw [hfc]
      simp only [List.map_cons, List.mem_cons, true_or, if_pos,
        Prod.mk.injEq]
      refine ⟨by trivial, ?_⟩
      by_cases hmem : k ∈ rest.map Prod.fst
      · rw [if_pos hmem, disconnect_idem]
      · rw [if_neg hmem]
    · have hw : w.sendFails = false := by simp [hk, hku]
      simp only [broadcastLoop, hw, Bool.false_eq_true, if_neg,
        not_false_eq_true]
      rw [ih _ _ hrest]
      have hfc : (((k, w) :: rest).map Prod.fst).filter (fun x => x ≠ u) =
          k :: (rest.map Prod.fst).filter (fun x => x ≠ u) := by
        simp [List.filter_cons, hku]
      have hne : (u = k) ↔ False := ⟨fun h => hku h.symm, False.elim⟩
      have hmc : (u ∈ ((k, w) :: rest).map Prod.fst) ↔
          u ∈ rest.map Prod.fst := by
        simp [List.mem_cons, hne]
      rw [hfc]
      simp only [hmc, Prod.mk.injEq]
      refine ⟨?_, by trivial⟩
      simp [List.reverse_cons, List.append_assoc]

theorem filter_ne_length {l : List String} {u : String} (hn : l.Nodup)
    (hu : u ∈ l) : (l.filter (fun k => k ≠ u)).length = l.length - 1 := by
  induction l with
  | nil => cases hu
  | cons a t ih =>
    rw [List.nodup_cons] at hn
    rcases List.mem_cons.mp hu with hau | hut
    · rw [← hau] at hn ⊢
      rw [List.filter_cons_of_neg (by simp)]
      have hteq : t.filter (fun k => k ≠ u) = t := by
        rw [List.filter_eq_self]
        intro b hb
        simp only [ne_eq, decide_eq_true_eq]
        intro hbu
        exact hn.1 (hbu ▸ hb)
      rw [hteq]
      simp
    · have hane : a ≠ u := fun h => hn.1 (h ▸ hut)
      rw [List.filter_cons_of_pos (by simpa using hane)]
      rw [List.length_cons, ih hn.2 hut, List.length_cons]
      have : 0 < t.length := List.length_pos.mpr (List.ne_nil_of_mem hut)
      omega

/-- C7: broadcasting over a registry in which exactly the connection `u`
fails to send delivers to every other registered key (in registration
order, N-1 of them), removes only `u` from the registry, and the
broadcast itself returns normally (`ConnectionManager.broadcast` is a
total function: every send error is caught inside its loop). -/
theorem broadcast_one_failing_delivers_rest (reg : Registry) (u : String)
    (hu : u ∈ reg.map Prod.fst)
    (hfail : ∀ p ∈ reg, p.2.sendFails = decide (p.1 = u))
    (hnodup : (reg.map Prod.fst).Nodup) :
    ConnectionManager.broadcast reg =
      ((reg.map Prod.fst).filter (fun k => k ≠ u),
       ConnectionManager.disconnect reg u) ∧
    (ConnectionManager.broadcast reg).1.length = reg.length - 1 ∧
    (∀ p ∈ reg, p.1 ≠ u → p ∈ (ConnectionManager.broadcast reg).2) ∧
    (∀ p ∈ (ConnectionManager.broadcast reg).2, p.1 ≠ u) := by
  have hb : ConnectionManager.broadcast reg =
      ((reg.map Prod.fst).filter (fun k => k ≠ u),
       ConnectionManager.disconnect reg u) := by
    unfold ConnectionManager.broadcast
    rw [broadcastLoop_spec u reg reg [] hfail]
    simp [hu]
  refine ⟨hb, ?_, ?_, ?_⟩
  · rw [hb]
    have hl := filter_ne_length hnodup hu
    simpa [List.length_map] using hl
  · intro p hp hpu
    rw [hb]
    exact List.mem_filter.mpr ⟨hp, by simpa using hpu⟩
  · intro p hp
    rw [hb] at hp
    have := (List.mem_filter.mp hp).2
    simpa using this

/-- C7 witness: three registered connections of which exactly `b` fails:
`a` and `c` are delivered to, only `b` is removed, and the result is the
stated pair. -/
theorem broadcast_one_failing_delivers_rest_witness :
    ("b" ∈ ([("a", ⟨false⟩), ("b", ⟨true⟩), ("c", ⟨false⟩)] :
        Registry).map Prod.fst) ∧
    (∀ p ∈ ([("a", ⟨false⟩), ("b", ⟨true⟩), ("c", ⟨false⟩)] : Registry),
      p.2.sendFails = decide (p.1 = "b")) ∧
    ((([("a", ⟨false⟩), ("b", ⟨true⟩), ("c", ⟨false⟩)] :
        Registry).map Prod.fst).Nodup) ∧
    (ConnectionManager.broadcast
        [("a", ⟨false⟩), ("b", ⟨true⟩), ("c", ⟨false⟩)] =
      ((([("a", ⟨false⟩), ("b", ⟨true⟩), ("c", ⟨false⟩)] :
          Registry).map Prod.fst).filter (fun k => k ≠ "b"),
       ConnectionManager.disconnect
         [("a", ⟨false⟩), ("b", ⟨true⟩), ("c", ⟨false⟩)] "b") ∧
     (ConnectionManager.broadcast
        [("a", ⟨false⟩), ("b", ⟨true⟩), ("c", ⟨false⟩)]).1.length =
       ([("a", ⟨false⟩), ("b", ⟨true⟩), ("c", ⟨false⟩)] :
         Registry).length - 1 ∧
     (∀ p ∈ ([("a", ⟨false⟩), ("b", ⟨true⟩), ("c", ⟨false⟩)] : Registry),
       p.1 ≠ "b" →
       p ∈ (ConnectionManager.broadcast
         [("a", ⟨false⟩), ("b", ⟨true⟩), ("c", ⟨false⟩)]).2) ∧
     (∀ p ∈ (ConnectionManager.broadcast
         [("a", ⟨false⟩), ("b", ⟨true⟩), ("c", ⟨false⟩)]).2,
       p.1 ≠ "b")) :=
  ⟨by decide, by decide, by decide,
   broadcast_one_failing_delivers_rest _ "b" (by decide) (by decide)
     (by decide)⟩

theorem from_dict_of_full_dict (f n : String)
    (v ty i c ts a p m st : JVal) :
    MessageEnvelope.from_dict f n
      ([("version", v), ("type", ty), ("id", i), ("correlationId", c),
        ("ts", ts), ("action", a), ("payload", p), ("meta", m)] ++
       [("status", st)]) =
    MessageEnvelope.init f n a ty p st c m v i ts := rfl

theorem from_dict_of_dict_without_status (f n : String)
    (v ty i c ts a p m : JVal) :
    MessageEnvelope.from_dict f n
      [("version", v), ("type", ty), ("id", i), ("correlationId", c),
       ("ts", ts), ("action", a), ("payload", p), ("meta", m)] =
    MessageEnvelope.init f n a ty p JVal.null c m v i ts := rfl

/-- C8: `from_dict (to_dict e)` reproduces every field of any envelope
that `__init__` can have produced: its id, correlationId and ts are
truthy (nonempty) and its payload and meta are dicts. The timestamp is
preserved (not regenerated: the serialized dict always carries "ts"), and
an absent status (`None`, omitted by `to_dict`) round-trips as absent.
The fresh uuid `f` and clock value `n` of the parsing side are unused. -/
theorem envelope_roundtrip (f n : String) (e : MessageEnvelope)
    (hid : e.id.truthy = true) (hcorr : e.correlationId.truthy = true)
    (hts : e.ts.truthy = true)
    (hp : pyOr e.payload (.obj []) = e.payload)
    (hm : pyOr e.meta (.obj []) = e.meta) :
    MessageEnvelope.from_dict f n e.to_dict = e := by
  obtain ⟨v, ty, i, c, ts, a, st, p, m⟩ := e
  have hid' : i.truthy = true := hid
  have hcorr' : c.truthy = true := hcorr
  have hts' : ts.truthy = true := hts
  have hp' : pyOr p (.obj []) = p := hp
  have hm' : pyOr m (.obj []) = m := hm
  by_cases hst : st = JVal.null
  · subst hst
    have htd : MessageEnvelope.to_dict ⟨v, ty, i, c, ts, a, JVal.null,
        p, m⟩ =
        [("version", v), ("type", ty), ("id", i), ("correlationId", c),
         ("ts", ts), ("action", a), ("payload", p), ("meta", m)] := by
      simp [MessageEnvelope.to_dict]
    rw [htd, from_dict_of_dict_without_status]
    simp only [MessageEnvelope.init]
    rw [pyOr_truthy _ hid', pyOr_truthy _ hcorr', pyOr_truthy _ hts',
      hp', hm']
  · have htd : MessageEnvelope.to_dict ⟨v, ty, i, c, ts, a, st, p, m⟩ =
        [("version", v), ("type", ty), ("id", i), ("correlationId", c),
         ("ts", ts), ("action", a), ("payload", p), ("meta", m)] ++
        [("status", st)] := by
      simp [MessageEnvelope.to_dict, hst]
    rw [htd, from_dict_of_full_dict]
    simp only [MessageEnvelope.init]
    rw [pyOr_truthy _ hid', pyOr_truthy _ hcorr', pyOr_truthy _ hts',
      hp', hm']

/-- C8 witness: a concrete response-like envelope with an absent status;
parsing its serialization reproduces it exactly. -/
theorem envelope_roundtrip_witness :
    (JVal.truthy (.str "id1") = true) ∧
    (JVal.truthy (.str "corr1") = true) ∧
    (JVal.truthy (.str "2025-11-28T05:15:37Z") = true) ∧
    (pyOr (.obj [("a", .num 2)]) (.obj []) = .obj [("a", .num 2)]) ∧
    (pyOr (.obj []) (.obj []) = .obj []) ∧
    MessageEnvelope.from_dict "fresh" "now"
      (MessageEnvelope.to_dict
        ⟨.num 1, .str "response", .str "id1", .str "corr1",
         .str "2025-11-28T05:15:37Z", .str "device.config.update",
         JVal.null, .obj [("a", .num 2)], .obj []⟩) =
      ⟨.num 1, .str "response", .str "id1", .str "corr1",
       .str "2025-11-28T05:15:37Z", .str "device.config.update",
       JVal.null, .obj [("a", .num 2)], .obj []⟩ :=
  ⟨by decide, by decide, by decide, by decide, by decide,
   envelope_roundtrip "fresh" "now" _ (by decide) (by decide) (by decide)
     (by decide) (by decide)⟩
